import Mathlib

/-!
Verification of the go-gdtu chain synchronization and crash-recovery
subsystem against its natural-language specification.

The development shallowly embeds the parts of the repository relevant to the
frozen claims:

* the crash-repair state machine exercised by the `testRepair` harness of
  `src/unnamed/part_003` (the repair implementation itself lives in
  `core/blockchain.go`, which is not part of the sampled sources, so it is
  modelled from the specification and validated against every rewind-test
  fixture present in the sources);
* the sync-driver fast-sync flag lifecycle exercised by
  `testFastSyncDisabling` in `src/unnamed/part_002`;
* the snapshot read accessors of `src/core/rawdb/accessors_snapshot.go`;
* the `New` constructor and `Stop` method of the Gdtu service in
  `src/unnamed/part_001`.

Machine integers are modelled as `Nat` (all quantities involved are block
numbers and counts far from overflow), byte strings as `List Nat`, and
fallible operations as `Except`.
-/

namespace GoGdtu

/-! ## Crash-repair model (core/blockchain repair, modelled from the spec)

The repair code itself (`core/blockchain.go`) is absent from the sampled
sources; only its test harness `testRepair` and 36 rewind-test fixtures are
present in `src/unnamed/part_003`.  The definitions below are modelled from
the specification (§3 head pointers, §4.1 `Freeze`, §4.2 crash recovery) and
are validated, fixture by fixture, against all 36 expectation records that
appear in the sources.
-/

/-- A rewind-test fixture, mirroring the `rewindTest` literals of
`src/unnamed/part_003`: a canonical chain of `canonicalBlocks` blocks above
genesis, a side chain of `sidechainBlocks` blocks branching off genesis,
a freezer threshold, the highest block whose state was durably committed
(besides genesis), and an optional fast-sync pivot number. -/
structure RewindTest where
  canonicalBlocks : Nat
  sidechainBlocks : Nat
  freezeThreshold : Nat
  commitBlock : Nat
  pivotBlock : Option Nat
  deriving Repr, DecidableEq

/-- The observable on-disk chain state reconstructed by the test harness
after a crash and restart: the three head pointers, the number of entries in
the ancient store, and the sets of canonical and side-chain block numbers
still retrievable from disk (hot store and ancient store together). -/
structure ChainState where
  headHeader : Nat
  headFastBlock : Nat
  headBlock : Nat
  frozen : Nat
  canonBlocks : List Nat
  sideBlocks : List Nat
  deriving Repr, DecidableEq

/-- Modelled from the spec (§4.1 `Freeze`): the number of ancient-store
entries after a freeze cycle with the given threshold, when the full block
head is at `head`.  All canonical blocks with `number <= BlockHead - threshold`
are frozen; block numbers start at genesis 0, so when `threshold <= head` the
frozen entries are the blocks `0 .. head - threshold`. -/
def freezeCount (head threshold : Nat) : Nat :=
  if threshold ≤ head then head - threshold + 1 else 0

/-- Modelled from the spec (§3, §4.2 step 4): whether a side-chain block
survives a freeze cycle that left `f` entries in the ancient store.  A side
block whose number is at or below the frozen boundary (`number < f`, the
frozen blocks being `0 .. f-1`) is unconditionally discarded since it can
never become canonical again; a side block above the boundary survives only
if its parent side block survived — a block whose parent was discarded is
dangling and is discarded as well (the fixtures of `src/unnamed/part_003`
record exactly this behaviour: every forked fixture with a non-empty freezer
expects zero surviving side blocks).  The side chain branches off genesis,
so side block 1's parent is the (canonical, always present) genesis. -/
def sideKeep (f : Nat) : Nat → Bool
  | 0 => true
  | 1 => decide (¬ 1 < f)
  | n + 2 => sideKeep f (n + 1) && decide (¬ n + 2 < f)

/-- The side-chain block numbers still on disk after a freeze cycle leaving
`f` ancient entries, for a side chain of `s` blocks numbered `1 .. s`. -/
def sideAfterFreeze (f s : Nat) : List Nat :=
  (List.range' 1 s).filter (sideKeep f)

/-- Modelled from the spec (§4.2 step 3): the crash is a "still fast
syncing" one when a pivot point was recorded and no state was committed at
or beyond it. -/
def fastSyncingCrash (rt : RewindTest) : Bool :=
  match rt.pivotBlock with
  | none => false
  | some p => decide (rt.commitBlock < p)

/-- Modelled from the spec (§4.2): the on-disk state observed after the
crash-repair procedure runs on a fixture.  Before the crash the harness
(`testRepair` in `src/unnamed/part_003`) has inserted and fully executed the
whole canonical chain (all three heads at `canonicalBlocks`), durably
committed state only for genesis and `commitBlock`, run one freeze cycle,
and recorded the pivot.  Recovery then:

1. reads the three heads and the pivot;
2. if a pivot was recorded and not yet passed, treats the crash as "still
   fast syncing": `BlockHead` goes to genesis and no chain data is deleted;
3. otherwise rolls `BlockHead` back to the nearest ancestor whose state is
   present (the commit block); if that rollback target fell below the
   immutable freezer boundary, the ancient store is truncated down to the
   target and everything above it is discarded (hot store emptied, all three
   heads at the target) — the deep repair; otherwise all chain data above
   the target is retained on disk for replay and only `BlockHead` moves —
   the short repair. -/
def repair (rt : RewindTest) : ChainState :=
  if fastSyncingCrash rt then
    { headHeader := rt.canonicalBlocks, headFastBlock := rt.canonicalBlocks
      headBlock := 0
      frozen := freezeCount rt.canonicalBlocks rt.freezeThreshold
      canonBlocks := List.range (rt.canonicalBlocks + 1)
      sideBlocks := sideAfterFreeze
        (freezeCount rt.canonicalBlocks rt.freezeThreshold) rt.sidechainBlocks }
  else if 0 < freezeCount rt.canonicalBlocks rt.freezeThreshold ∧
      rt.commitBlock < freezeCount rt.canonicalBlocks rt.freezeThreshold - 1 then
    { headHeader := rt.commitBlock, headFastBlock := rt.commitBlock
      headBlock := rt.commitBlock
      frozen := rt.commitBlock + 1
      canonBlocks := List.range (rt.commitBlock + 1)
      sideBlocks := [] }
  else
    { headHeader := rt.canonicalBlocks, headFastBlock := rt.canonicalBlocks
      headBlock := rt.commitBlock
      frozen := freezeCount rt.canonicalBlocks rt.freezeThreshold
      canonBlocks := List.range (rt.canonicalBlocks + 1)
      sideBlocks := sideAfterFreeze
        (freezeCount rt.canonicalBlocks rt.freezeThreshold) rt.sidechainBlocks }

/-- The expected post-recovery observations recorded in a fixture of
`src/unnamed/part_003`: number of canonical blocks above genesis retained,
number of side blocks retained, ancient entries, and the three heads. -/
structure RewindExpect where
  expCanonicalBlocks : Nat
  expSidechainBlocks : Nat
  expFrozen : Nat
  expHeadHeader : Nat
  expHeadFastBlock : Nat
  expHeadBlock : Nat
  deriving Repr, DecidableEq

/-- Whether the modelled repair reproduces a fixture's expectations:
the heads and ancient count match, the retained canonical blocks are exactly
genesis plus `expCanonicalBlocks`, and the retained side blocks are exactly
`expSidechainBlocks` of the side chain (side blocks survive from number 1
upward, or not at all, in every fixture). -/
def checkFixture (rt : RewindTest) (e : RewindExpect) : Bool :=
  let s := repair rt
  s.headHeader == e.expHeadHeader &&
  s.headFastBlock == e.expHeadFastBlock &&
  s.headBlock == e.expHeadBlock &&
  s.frozen == e.expFrozen &&
  s.canonBlocks == List.range (e.expCanonicalBlocks + 1) &&
  s.sideBlocks == List.range' 1 e.expSidechainBlocks

/-- All 36 rewind-test fixtures of `src/unnamed/part_003`, in file order,
each paired with its recorded expectations. -/
def allFixtures : List (RewindTest × RewindExpect) :=
  [ (⟨8, 0, 16, 4, none⟩, ⟨8, 0, 0, 8, 8, 4⟩),
    (⟨8, 0, 16, 4, some 4⟩, ⟨8, 0, 0, 8, 8, 4⟩),
    (⟨8, 0, 16, 0, some 4⟩, ⟨8, 0, 0, 8, 8, 0⟩),
    (⟨8, 3, 16, 4, none⟩, ⟨8, 3, 0, 8, 8, 4⟩),
    (⟨8, 3, 16, 4, some 4⟩, ⟨8, 3, 0, 8, 8, 4⟩),
    (⟨8, 3, 16, 0, some 4⟩, ⟨8, 3, 0, 8, 8, 0⟩),
    (⟨8, 6, 16, 4, none⟩, ⟨8, 6, 0, 8, 8, 4⟩),
    (⟨8, 6, 16, 4, some 4⟩, ⟨8, 6, 0, 8, 8, 4⟩),
    (⟨8, 6, 16, 0, some 4⟩, ⟨8, 6, 0, 8, 8, 0⟩),
    (⟨8, 10, 16, 4, none⟩, ⟨8, 10, 0, 8, 8, 4⟩),
    (⟨8, 10, 16, 4, some 4⟩, ⟨8, 10, 0, 8, 8, 4⟩),
    (⟨8, 10, 16, 0, some 4⟩, ⟨8, 10, 0, 8, 8, 0⟩),
    (⟨18, 0, 16, 4, none⟩, ⟨18, 0, 3, 18, 18, 4⟩),
    (⟨24, 0, 16, 4, none⟩, ⟨4, 0, 5, 4, 4, 4⟩),
    (⟨18, 0, 16, 4, some 4⟩, ⟨18, 0, 3, 18, 18, 4⟩),
    (⟨24, 0, 16, 4, some 4⟩, ⟨4, 0, 5, 4, 4, 4⟩),
    (⟨18, 0, 16, 0, some 4⟩, ⟨18, 0, 3, 18, 18, 0⟩),
    (⟨24, 0, 16, 0, some 4⟩, ⟨24, 0, 9, 24, 24, 0⟩),
    (⟨18, 3, 16, 4, none⟩, ⟨18, 0, 3, 18, 18, 4⟩),
    (⟨24, 3, 16, 4, none⟩, ⟨4, 0, 5, 4, 4, 4⟩),
    (⟨18, 3, 16, 4, some 4⟩, ⟨18, 0, 3, 18, 18, 4⟩),
    (⟨24, 3, 16, 4, some 4⟩, ⟨4, 0, 5, 4, 4, 4⟩),
    (⟨18, 3, 16, 0, some 4⟩, ⟨18, 0, 3, 18, 18, 0⟩),
    (⟨24, 3, 16, 0, some 4⟩, ⟨24, 0, 9, 24, 24, 0⟩),
    (⟨18, 12, 16, 4, none⟩, ⟨18, 0, 3, 18, 18, 4⟩),
    (⟨24, 12, 16, 4, none⟩, ⟨4, 0, 5, 4, 4, 4⟩),
    (⟨18, 12, 16, 4, some 4⟩, ⟨18, 0, 3, 18, 18, 4⟩),
    (⟨24, 12, 16, 4, some 4⟩, ⟨4, 0, 5, 4, 4, 4⟩),
    (⟨18, 12, 16, 0, some 4⟩, ⟨18, 0, 3, 18, 18, 0⟩),
    (⟨24, 12, 16, 0, some 4⟩, ⟨24, 0, 9, 24, 24, 0⟩),
    (⟨18, 26, 16, 4, none⟩, ⟨18, 0, 3, 18, 18, 4⟩),
    (⟨24, 26, 16, 4, none⟩, ⟨4, 0, 5, 4, 4, 4⟩),
    (⟨18, 26, 16, 4, some 4⟩, ⟨18, 0, 3, 18, 18, 4⟩),
    (⟨24, 26, 16, 4, some 4⟩, ⟨4, 0, 5, 4, 4, 4⟩),
    (⟨18, 26, 16, 0, some 4⟩, ⟨18, 0, 3, 18, 18, 0⟩),
    (⟨24, 26, 16, 0, some 4⟩, ⟨24, 0, 9, 24, 24, 0⟩) ]

/-- The fixture of `testShortRepair` (`src/unnamed/part_003` lines 45-76). -/
def shortRepairTest : RewindTest := ⟨8, 0, 16, 4, none⟩

/-- The fixture of `testLgdtuDeepRepair` (`src/unnamed/part_003` lines
618-653). -/
def deepRepairTest : RewindTest := ⟨24, 0, 16, 4, none⟩

/-- The fixture of `testShortFastSyncingRepair` (`src/unnamed/part_003`
lines 125-156). -/
def shortFastSyncingRepairTest : RewindTest := ⟨8, 0, 16, 0, some 4⟩

/-- The fixture of `testShortOldForkedRepair` (`src/unnamed/part_003` lines
166-199). -/
def shortOldForkedRepairTest : RewindTest := ⟨8, 3, 16, 4, none⟩

/-- The fixture of `testLgdtuOldForkedShallowRepair` (`src/unnamed/part_003`
lines 857-894). -/
def lgdtuOldForkedShallowRepairTest : RewindTest := ⟨18, 3, 16, 4, none⟩

/-! ## Synchronization-driver fast-sync flag (modelled from the spec)

The sync driver (`gdtu/handler.go`, the `fastSync` field and its lifecycle)
is absent from the sampled sources; present are its consumer
(`src/gdtu/handler_eth.go`, which only reads the flag) and the test
`testFastSyncDisabling` (`src/unnamed/part_002`).  The state machine below
is modelled from the specification (§4.3 "Disabling fast-sync-acceptance"):
once `BlockHead` advances past the pivot via normal execution the driver
clears the fast-sync flag permanently; restarting synchronization never
sets it again. -/

/-- The sync driver's state: the fast-sync flag (`handler.fastSync`), the
current full block head, and the recorded pivot number. -/
structure SyncDriver where
  fastSync : Bool
  blockHead : Nat
  pivot : Nat
  deriving Repr, DecidableEq

/-- Events the driver reacts to: a sync cycle completing with the block head
advanced to `newHead` (monotone — heads never move backwards during sync),
and a restart of synchronization. -/
inductive SyncEvent
  | completeSync (newHead : Nat)
  | startSync
  deriving Repr, DecidableEq

/-- Modelled from the spec (§4.3): one step of the driver.  When a sync
cycle completes with the block head past the pivot, the fast-sync flag is
cleared; it is never set by any event — in particular a sync restart leaves
it untouched. -/
def syncStep (d : SyncDriver) (e : SyncEvent) : SyncDriver :=
  match e with
  | .completeSync newHead =>
    if d.pivot < Nat.max d.blockHead newHead then
      { d with blockHead := Nat.max d.blockHead newHead, fastSync := false }
    else
      { d with blockHead := Nat.max d.blockHead newHead }
  | .startSync => d

/-- A run of the driver over a sequence of events. -/
def syncRun (d : SyncDriver) (es : List SyncEvent) : SyncDriver :=
  es.foldl syncStep d

/-- Modelled from `testFastSyncDisabling` (`src/unnamed/part_002`): a fresh
handler enables fast sync only on a pristine (empty) blockchain. -/
def newSyncDriver (blockHead pivot : Nat) : SyncDriver :=
  { fastSync := blockHead == 0, blockHead := blockHead, pivot := pivot }

/-! ## Snapshot read accessors (`src/core/rawdb/accessors_snapshot.go`)

Byte strings are `List Nat`, a key-value store is its `Get` function, and a
failed lookup is `Except.error` — the Go accessors discard that error
(`data, _ := db.Get(key)`, leaving `data` nil) and fall back to a zero
result. -/

/-- A key-value reader: the `Get` point-lookup of the `gdtudb` store. -/
structure KeyValueReader where
  get : List Nat → Except String (List Nat)

/-- The bytes a Go accessor sees after `data, _ := db.Get(key)`: the stored
value, or nil when the lookup failed. -/
def readBytes (db : KeyValueReader) (key : List Nat) : List Nat :=
  match db.get key with
  | .ok d => d
  | .error _ => []

/-- `common.HashLength`: hashes are 32 bytes. -/
def HashLength : Nat := 32

/-- The all-zero hash `common.Hash{}`. -/
def zeroHash : List Nat := List.replicate HashLength 0

/-- `common.BytesToHash`: right-align the bytes into a 32-byte hash,
truncating from the left when longer. -/
def bytesToHash (b : List Nat) : List Nat :=
  List.replicate (HashLength - b.length) 0 ++ b.drop (b.length - HashLength)

/-- The database key of the persisted snapshot root ("SnapshotRoot"; the
key constants live in `core/rawdb/schema.go`, absent from the sampled
sources — only the byte values matter here, not their spelling). -/
def snapshotRootKey : List Nat := [83, 110, 97, 112, 115, 104, 111, 116, 82, 111, 111, 116]

/-- The database key of the snapshot recovery number
("SnapshotRecoveryNumber", see `snapshotRootKey` about provenance). -/
def snapshotRecoveryKey : List Nat :=
  [83, 110, 97, 112, 115, 104, 111, 116, 82, 101, 99, 111, 118, 101, 114, 121]

/-- `binary.BigEndian.Uint64` over an 8-byte big-endian buffer. -/
def bigEndianUint64 (b : List Nat) : Nat :=
  b.foldl (fun acc x => acc * 256 + x % 256) 0

/-- `ReadSnapshotRoot` (`src/core/rawdb/accessors_snapshot.go` lines 29-35):
returns the zero hash whenever the entry is absent or not exactly 32 bytes,
and never an error. -/
def ReadSnapshotRoot (db : KeyValueReader) : List Nat :=
  let data := readBytes db snapshotRootKey
  if data.length ≠ HashLength then zeroHash
  else bytesToHash data

/-- `ReadSnapshotRecoveryNumber` (`src/core/rawdb/accessors_snapshot.go`
lines 149-159): returns `none` whenever the entry is absent or not exactly
8 bytes, and never an error. -/
def ReadSnapshotRecoveryNumber (db : KeyValueReader) : Option Nat :=
  let data := readBytes db snapshotRecoveryKey
  if data.length = 0 then none
  else if data.length ≠ 8 then none
  else some (bigEndianUint64 data)

/-- A store in which every lookup fails. -/
def dbAbsent : KeyValueReader :=
  ⟨fun _ => .error "not found"⟩

/-! ## The Gdtu service constructor and stop sequence
(`src/unnamed/part_001`, `New` at lines 101-263 and `Gdtu.Stop` at lines
538-554)

`New` is embedded as a function of the configuration and of an oracle
(`NewWorld`) giving the outcome of each fallible collaborator call, and
returns its result together with the ordered trace of persistent-state
events it performed.  `Stop` always runs the same sequence, embedded as the
constant trace `StopTrace`. -/

/-- Sync mode constants.  Modelled from the spec (§4.3 sync modes); the
`downloader.SyncMode` type itself is absent from the sampled sources.
A mode is valid when it lies between `FullSync` and `LightSync`. -/
def FullSync : Nat := 0

/-- Fast sync mode. -/
def FastSync : Nat := 1

/-- Snap sync mode. -/
def SnapSync : Nat := 2

/-- Light sync mode (rejected by the full-node constructor). -/
def LightSync : Nat := 3

/-- `SyncMode.IsValid`, modelled from the spec: the valid modes are exactly
`FullSync .. LightSync`. -/
def syncModeIsValid (m : Nat) : Bool :=
  decide (m ≤ LightSync)

/-- The configuration fields of `gdtuconfig.Config` read by the embedded
prefix of `New`. -/
structure GdtuConfig where
  syncMode : Nat
  minerGasPrice : Option Int
  noPruning : Bool
  trieCleanCache : Nat
  trieDirtyCache : Nat
  snapshotCache : Nat
  skipBcVersionCheck : Bool
  deriving Repr, DecidableEq

/-- `gdtuconfig.Defaults.Miner.GasPrice` (1 gwei; the defaults table is in
`gdtu/gdtuconfig/config.go`). -/
def defaultMinerGasPrice : Int := 1000000000

/-- The pure configuration normalization `New` performs before any
persistent effect: sanitizing a missing or non-positive miner gas price and
folding the dirty-trie cache allowance into the clean/snapshot caches when
pruning is disabled. -/
def sanitizeConfig (c : GdtuConfig) : GdtuConfig :=
  let c1 :=
    match c.minerGasPrice with
    | none => { c with minerGasPrice := some defaultMinerGasPrice }
    | some p =>
      if p ≤ 0 then { c with minerGasPrice := some defaultMinerGasPrice } else c
  if c1.noPruning ∧ 0 < c1.trieDirtyCache then
    if 0 < c1.snapshotCache then
      { c1 with
        trieCleanCache := c1.trieCleanCache + c1.trieDirtyCache * 3 / 5
        snapshotCache := c1.snapshotCache + c1.trieDirtyCache * 2 / 5
        trieDirtyCache := 0 }
    else
      { c1 with
        trieCleanCache := c1.trieCleanCache + c1.trieDirtyCache
        trieDirtyCache := 0 }
  else c1

/-- The persistent-state and shutdown events performed by `New` and
`Stop`, in the order the source performs them. -/
inductive Event
  | openDB
  | writeDatabaseVersion
  | setHead
  | writeChainConfig
  | pushUncleanShutdownMarker
  | handlerStop
  | bloomIndexerClose
  | closeBloomHandler
  | txPoolStop
  | minerStop
  | blockchainStop
  | engineClose
  | popUncleanShutdownMarker
  | closeDB
  | eventMuxStop
  deriving Repr, DecidableEq

/-- The outcome of `core.SetupGenesisBlockWithOverride`: no error, a
`params.ConfigCompatError` (which `New` tolerates, rewinding the chain), or
any other (fatal) error. -/
inductive GenesisErr
  | compat (rewindTo : Nat)
  | fatal
  deriving Repr, DecidableEq

/-- `core.BlockChainVersion` (defined in `core/blockchain.go`, absent from
the sampled sources; its exact value is immaterial to the claims). -/
def blockChainVersion : Nat := 8

/-- The oracle for `New`'s fallible collaborator calls, in call order:
opening the chain database, genesis setup, the stored database version,
creating the blockchain, the protocol handler, and the two discovery
candidate sources. -/
structure NewWorld where
  openDB : Except String Unit
  genesisErr : Option GenesisErr
  bcVersion : Option Nat
  newBlockChain : Except String Unit
  newHandler : Except String Unit
  gdtuDialCandidates : Except String Unit
  snapDialCandidates : Except String Unit

/-- The `New` constructor of the Gdtu service (`src/unnamed/part_001` lines
101-263): validates the sync mode, normalizes the configuration, opens the
chain database, sets up genesis, runs the database version check, creates
the blockchain (rewinding on a genesis compatibility error), the tx pool,
the handler and the discovery sources, and finally pushes the
unclean-shutdown marker before returning.  The result is paired with the
ordered trace of persistent-state events performed.  A push failure is only
logged by the source, so the trace records the push being performed, not
its durability. -/
def New (config : GdtuConfig) (w : NewWorld) :
    Except String Unit × List Event :=
  if config.syncMode = LightSync then
    (.error "cant run gdtu.Gdtu in light sync mode, use les.LightGdtu", [])
  else if syncModeIsValid config.syncMode = false then
    (.error "invalid sync mode", [])
  else
    let _cfg := sanitizeConfig config
    match w.openDB with
    | .error e => (.error e, [Event.openDB])
    | .ok _ =>
      if w.genesisErr = some .fatal then
        (.error "genesis setup failed", [Event.openDB])
      else
        let verEvents : Option (List Event) :=
          if config.skipBcVersionCheck then some []
          else
            match w.bcVersion with
            | some v =>
              if blockChainVersion < v then none
              else if v < blockChainVersion then some [Event.writeDatabaseVersion]
              else some []
            | none => some [Event.writeDatabaseVersion]
        match verEvents with
        | none => (.error "incompatible database version", [Event.openDB])
        | some ve =>
          match w.newBlockChain with
          | .error e => (.error e, Event.openDB :: ve)
          | .ok _ =>
            let compatEvents : List Event :=
              match w.genesisErr with
              | some (.compat _) => [Event.setHead, Event.writeChainConfig]
              | _ => []
            match w.newHandler with
            | .error e => (.error e, Event.openDB :: (ve ++ compatEvents))
            | .ok _ =>
              match w.gdtuDialCandidates with
              | .error e => (.error e, Event.openDB :: (ve ++ compatEvents))
              | .ok _ =>
                match w.snapDialCandidates with
                | .error e => (.error e, Event.openDB :: (ve ++ compatEvents))
                | .ok _ =>
                  (.ok (), Event.openDB ::
                    (ve ++ compatEvents ++ [Event.pushUncleanShutdownMarker]))

/-- The `Gdtu.Stop` sequence (`src/unnamed/part_001` lines 538-554): the
unclean-shutdown marker is popped after the subsystems stop and before the
chain database is closed. -/
def StopTrace : List Event :=
  [Event.handlerStop, Event.bloomIndexerClose, Event.closeBloomHandler,
   Event.txPoolStop, Event.minerStop, Event.blockchainStop, Event.engineClose,
   Event.popUncleanShutdownMarker, Event.closeDB, Event.eventMuxStop]

/-- The number of unclean-shutdown markers on disk after a trace of events,
starting from `init` markers: a push appends one, a pop removes one. -/
def markersAfter (init : Nat) : List Event → Nat
  | [] => init
  | Event.pushUncleanShutdownMarker :: tr => markersAfter (init + 1) tr
  | Event.popUncleanShutdownMarker :: tr => markersAfter (init - 1) tr
  | _ :: tr => markersAfter init tr

/-- A configuration accepted by `New`: full sync, everything defaulted. -/
def cfgOk : GdtuConfig :=
  { syncMode := FullSync, minerGasPrice := some defaultMinerGasPrice
    noPruning := false, trieCleanCache := 154, trieDirtyCache := 256
    snapshotCache := 102, skipBcVersionCheck := false }

/-- A light-sync configuration, rejected by `New`. -/
def cfgLight : GdtuConfig :=
  { cfgOk with syncMode := LightSync }

/-- An oracle in which every collaborator call succeeds. -/
def wOk : NewWorld :=
  { openDB := .ok (), genesisErr := none, bcVersion := some blockChainVersion
    newBlockChain := .ok (), newHandler := .ok ()
    gdtuDialCandidates := .ok (), snapDialCandidates := .ok () }

end GoGdtu

namespace GoGdtu

/-- Sanity validation of the spec-modelled repair procedure: it reproduces
the recorded expectations of all 36 rewind-test fixtures present in
`src/unnamed/part_003`. -/
theorem repair_matches_all_fixtures :
    allFixtures.all (fun p => checkFixture p.1 p.2) = true := by decide

/-- A side-chain block strictly below the freezer boundary never survives a
freeze cycle. -/
theorem sideKeep_eq_false (f n : Nat) (h1 : 1 ≤ n) (h2 : n < f) :
    sideKeep f n = false := by
  match n, h1 with
  | 1, _ => simp [sideKeep, h2]
  | (m + 2), _ => simp [sideKeep]; omega

/-- With at most genesis frozen, every side-chain block survives the freeze
cycle. -/
theorem sideKeep_eq_true (f : Nat) (hf : f ≤ 1) (n : Nat) :
    sideKeep f n = true := by
  induction n using Nat.strong_induction_on with
  | _ n ih =>
    match n with
    | 0 => rfl
    | 1 => simp [sideKeep]; omega
    | (m + 2) =>
      simp [sideKeep]
      refine ⟨ih (m + 1) (by omega), by omega⟩

/-- C1.  Head ordering invariant: for every crash-repair scenario (any
fixture whose committed block lies on the canonical chain), the state
observed immediately after crash recovery satisfies
`BlockHead.number <= FastBlockHead.number <= HeaderHead.number`. -/
theorem head_ordering_invariant (rt : RewindTest)
    (h : rt.commitBlock ≤ rt.canonicalBlocks) :
    (repair rt).headBlock ≤ (repair rt).headFastBlock ∧
    (repair rt).headFastBlock ≤ (repair rt).headHeader := by
  unfold repair
  by_cases hc1 : fastSyncingCrash rt = true
  · rw [if_pos hc1]
    exact ⟨Nat.zero_le _, Nat.le_refl _⟩
  · rw [if_neg hc1]
    by_cases hc2 : 0 < freezeCount rt.canonicalBlocks rt.freezeThreshold ∧
        rt.commitBlock < freezeCount rt.canonicalBlocks rt.freezeThreshold - 1
    · rw [if_pos hc2]
      exact ⟨Nat.le_refl _, Nat.le_refl _⟩
    · rw [if_neg hc2]
      exact ⟨h, Nat.le_refl _⟩

/-- Witness for C1 at the `testShortRepair` fixture. -/
theorem head_ordering_invariant_witness :
    shortRepairTest.commitBlock ≤ shortRepairTest.canonicalBlocks ∧
    ((repair shortRepairTest).headBlock ≤ (repair shortRepairTest).headFastBlock ∧
     (repair shortRepairTest).headFastBlock ≤ (repair shortRepairTest).headHeader) :=
  ⟨by decide, head_ordering_invariant shortRepairTest (by decide)⟩

/-- C2.  Short crash repair: on the `testShortRepair` fixture (8 canonical
blocks, state committed through block 4, nothing frozen, no pivot), recovery
yields `BlockHead = 4`, `HeaderHead = 8`, `FastBlockHead = 8`, and all 8
canonical blocks (plus genesis) still present on disk. -/
theorem short_repair_correct :
    (repair shortRepairTest).headBlock = 4 ∧
    (repair shortRepairTest).headHeader = 8 ∧
    (repair shortRepairTest).headFastBlock = 8 ∧
    (repair shortRepairTest).canonBlocks = List.range 9 := by decide

/-- C3.  Deep crash repair: on the `testLgdtuDeepRepair` fixture (24
canonical blocks, freeze threshold 16 so blocks 0-8 are frozen, state
committed through block 4, no pivot), recovery yields an ancient store of
exactly 5 entries, a hot store with no canonical block beyond block 4 (every
retained block lies inside the ancient range), and all three heads at 4. -/
theorem deep_repair_correct :
    (repair deepRepairTest).frozen = 5 ∧
    (repair deepRepairTest).canonBlocks = List.range 5 ∧
    ((repair deepRepairTest).canonBlocks.all
      (fun n => n < (repair deepRepairTest).frozen)) = true ∧
    (repair deepRepairTest).headHeader = 4 ∧
    (repair deepRepairTest).headFastBlock = 4 ∧
    (repair deepRepairTest).headBlock = 4 := by decide

/-- C4.  Pivot-respecting recovery: on the `testShortFastSyncingRepair`
fixture (8 canonical blocks, pivot recorded at block 4, no state committed
beyond genesis), recovery leaves `BlockHead` at genesis, leaves `HeaderHead`
and `FastBlockHead` at 8, and retains all 8 downloaded canonical blocks on
disk without deleting any chain data. -/
theorem pivot_respecting_repair_correct :
    (repair shortFastSyncingRepairTest).headBlock = 0 ∧
    (repair shortFastSyncingRepairTest).headHeader = 8 ∧
    (repair shortFastSyncingRepairTest).headFastBlock = 8 ∧
    (repair shortFastSyncingRepairTest).canonBlocks = List.range 9 ∧
    (repair shortFastSyncingRepairTest).frozen = 0 := by decide

/-- C5.  No-gap invariant: after every crash-recovery run (any fixture), a
canonical header exists for every block number between genesis and
`HeaderHead.number`. -/
theorem no_gap_invariant (rt : RewindTest) (n : Nat)
    (hn : n ≤ (repair rt).headHeader) :
    n ∈ (repair rt).canonBlocks := by
  unfold repair at hn ⊢
  by_cases hc1 : fastSyncingCrash rt = true
  · rw [if_pos hc1] at hn ⊢
    dsimp only at hn ⊢
    rw [List.mem_range]
    omega
  · rw [if_neg hc1] at hn ⊢
    by_cases hc2 : 0 < freezeCount rt.canonicalBlocks rt.freezeThreshold ∧
        rt.commitBlock < freezeCount rt.canonicalBlocks rt.freezeThreshold - 1
    · rw [if_pos hc2] at hn ⊢
      dsimp only at hn ⊢
      rw [List.mem_range]
      omega
    · rw [if_neg hc2] at hn ⊢
      dsimp only at hn ⊢
      rw [List.mem_range]
      omega

/-- Witness for C5 at the `testLgdtuDeepRepair` fixture with block 3. -/
theorem no_gap_invariant_witness :
    3 ≤ (repair deepRepairTest).headHeader ∧
    3 ∈ (repair deepRepairTest).canonBlocks :=
  ⟨by decide, no_gap_invariant deepRepairTest 3 (by decide)⟩

/-- C6.  Side-chain discarding at the freezer boundary: after crash
recovery of any fixture, every side-chain block whose number is at or below
the frozen boundary (the frozen blocks being `0 .. frozen-1`) is no longer
retrievable; and when no block was frozen, every side-chain block is
retained through recovery. -/
theorem sidechain_freezer_boundary (rt : RewindTest) (n : Nat) :
    (1 ≤ n → n < (repair rt).frozen → n ∉ (repair rt).sideBlocks) ∧
    (freezeCount rt.canonicalBlocks rt.freezeThreshold = 0 → 1 ≤ n →
      n ≤ rt.sidechainBlocks → n ∈ (repair rt).sideBlocks) := by
  have hfreeze : ∀ s : Nat, 1 ≤ n →
      n < freezeCount rt.canonicalBlocks rt.freezeThreshold →
      n ∉ sideAfterFreeze (freezeCount rt.canonicalBlocks rt.freezeThreshold) s := by
    intro s h1 h2 hmem
    unfold sideAfterFreeze at hmem
    rw [List.mem_filter, sideKeep_eq_false _ _ h1 h2] at hmem
    exact absurd hmem.2 (by simp)
  have hkeep : ∀ s : Nat,
      freezeCount rt.canonicalBlocks rt.freezeThreshold = 0 → 1 ≤ n → n ≤ s →
      n ∈ sideAfterFreeze (freezeCount rt.canonicalBlocks rt.freezeThreshold) s := by
    intro s hf h1 hs
    unfold sideAfterFreeze
    rw [List.mem_filter]
    refine ⟨by rw [List.mem_range'_1]; omega, ?_⟩
    rw [sideKeep_eq_true _ (by omega)]
  unfold repair
  by_cases hc1 : fastSyncingCrash rt = true
  · rw [if_pos hc1]
    exact ⟨hfreeze _, hkeep _⟩
  · rw [if_neg hc1]
    by_cases hc2 : 0 < freezeCount rt.canonicalBlocks rt.freezeThreshold ∧
        rt.commitBlock < freezeCount rt.canonicalBlocks rt.freezeThreshold - 1
    · rw [if_pos hc2]
      constructor
      · intro _ _
        simp
      · intro hf _ _
        rw [hf] at hc2
        exact absurd hc2.1 (by omega)
    · rw [if_neg hc2]
      exact ⟨hfreeze _, hkeep _⟩

/-- Witness for C6: on `testLgdtuOldForkedShallowRepair` (frozen boundary at
block 2) side block 2 is discarded, while on `testShortOldForkedRepair`
(nothing frozen) side block 3 survives recovery. -/
theorem sidechain_freezer_boundary_witness :
    (2 ∉ (repair lgdtuOldForkedShallowRepairTest).sideBlocks) ∧
    (3 ∈ (repair shortOldForkedRepairTest).sideBlocks) :=
  ⟨(sidechain_freezer_boundary lgdtuOldForkedShallowRepairTest 2).1
      (by decide) (by decide),
   (sidechain_freezer_boundary shortOldForkedRepairTest 3).2
      (by decide) (by decide) (by decide)⟩

/-- A cleared fast-sync flag is preserved by every driver step. -/
theorem syncStep_fastSync_false (d : SyncDriver) (e : SyncEvent)
    (h : d.fastSync = false) : (syncStep d e).fastSync = false := by
  cases e with
  | completeSync newHead =>
    unfold syncStep
    split <;> simp [h]
  | startSync => exact h

/-- A cleared fast-sync flag is preserved by every driver run. -/
theorem syncRun_fastSync_false (es : List SyncEvent) :
    ∀ d : SyncDriver, d.fastSync = false → (syncRun d es).fastSync = false := by
  induction es with
  | nil => intro d h; exact h
  | cons e es ih =>
    intro d h
    exact ih (syncStep d e) (syncStep_fastSync_false d e h)

/-- C7.  Fast-sync disabling is permanent: as soon as a sync cycle
completes with the full block head past the pivot, the driver's fast-sync
flag is cleared, and it stays cleared for every later sequence of events —
including arbitrary sync restarts and further sync completions. -/
theorem fastSync_disabled_permanently (d : SyncDriver) (newHead : Nat)
    (es : List SyncEvent) (h : d.pivot < Nat.max d.blockHead newHead) :
    (syncStep d (.completeSync newHead)).fastSync = false ∧
    (syncRun (syncStep d (.completeSync newHead)) es).fastSync = false := by
  have h1 : (syncStep d (.completeSync newHead)).fastSync = false := by
    simp only [syncStep]
    rw [if_pos h]
  exact ⟨h1, syncRun_fastSync_false es _ h1⟩

/-- Witness for C7: a pristine driver (fast sync on, pivot 4) finishing a
cycle at head 5 has the flag cleared, and it remains cleared after a sync
restart and another completed cycle. -/
theorem fastSync_disabled_permanently_witness :
    (newSyncDriver 0 4).pivot < Nat.max (newSyncDriver 0 4).blockHead 5 ∧
    ((syncStep (newSyncDriver 0 4) (.completeSync 5)).fastSync = false ∧
     (syncRun (syncStep (newSyncDriver 0 4) (.completeSync 5))
       [SyncEvent.startSync, SyncEvent.completeSync 7]).fastSync = false) :=
  ⟨by decide, fastSync_disabled_permanently (newSyncDriver 0 4) 5
      [SyncEvent.startSync, SyncEvent.completeSync 7] (by decide)⟩

/-- C8.  Absent reads return a zero value rather than an error: for every
key-value store, `ReadSnapshotRoot` returns the zero hash whenever the
lookup fails or yields a malformed (non-32-byte) entry, and
`ReadSnapshotRecoveryNumber` returns `none` whenever the lookup fails or
yields a malformed (non-8-byte) entry; being total functions into
`List Nat` and `Option Nat`, neither can propagate a lookup failure. -/
theorem read_accessors_absent_nil (db : KeyValueReader) :
    (∀ e, db.get snapshotRootKey = .error e → ReadSnapshotRoot db = zeroHash) ∧
    (∀ d, db.get snapshotRootKey = .ok d → d.length ≠ HashLength →
      ReadSnapshotRoot db = zeroHash) ∧
    (∀ e, db.get snapshotRecoveryKey = .error e →
      ReadSnapshotRecoveryNumber db = none) ∧
    (∀ d, db.get snapshotRecoveryKey = .ok d → d.length ≠ 8 →
      ReadSnapshotRecoveryNumber db = none) := by
  refine ⟨?_, ?_, ?_, ?_⟩
  · intro e he
    unfold ReadSnapshotRoot readBytes
    rw [he]
    rfl
  · intro d hd hlen
    unfold ReadSnapshotRoot readBytes
    rw [hd]
    simp [hlen]
  · intro e he
    unfold ReadSnapshotRecoveryNumber readBytes
    rw [he]
    rfl
  · intro d hd hlen
    unfold ReadSnapshotRecoveryNumber readBytes
    rw [hd]
    simp [hlen]

/-- Witness for C8 on a store where every lookup fails. -/
theorem read_accessors_absent_nil_witness :
    ReadSnapshotRoot dbAbsent = zeroHash ∧
    ReadSnapshotRecoveryNumber dbAbsent = none :=
  ⟨(read_accessors_absent_nil dbAbsent).1 "not found" rfl,
   (read_accessors_absent_nil dbAbsent).2.2.1 "not found" rfl⟩

/-- C9.  Unclean-shutdown marker lifecycle: every successful run of `New`
performs exactly one marker push (and no pop) before returning, so a marker
remains on disk after a crash; the `Stop` sequence pops exactly one marker,
and does so before closing the chain database, so after a clean stop no
marker remains. -/
theorem unclean_shutdown_marker_lifecycle (config : GdtuConfig)
    (w : NewWorld) (res : Unit) (tr : List Event)
    (h : New config w = (Except.ok res, tr)) :
    Event.pushUncleanShutdownMarker ∈ tr ∧
    markersAfter 0 tr = 1 ∧
    markersAfter 0 (tr ++ StopTrace) = 0 ∧
    Event.popUncleanShutdownMarker ∈
      StopTrace.takeWhile (fun e => e ≠ Event.closeDB) := by
  unfold New at h
  repeat' split at h
  all_goals simp only [Prod.mk.injEq] at h
  all_goals first
    | (exact Except.noConfusion h.1)
    | (obtain ⟨-, h2⟩ := h
       subst h2
       refine ⟨by decide, by decide, by decide, by decide⟩)

/-- Witness for C9: the all-successful run of `New`. -/
theorem unclean_shutdown_marker_lifecycle_witness :
    Event.pushUncleanShutdownMarker ∈ (New cfgOk wOk).2 ∧
    markersAfter 0 (New cfgOk wOk).2 = 1 ∧
    markersAfter 0 ((New cfgOk wOk).2 ++ StopTrace) = 0 ∧
    Event.popUncleanShutdownMarker ∈
      StopTrace.takeWhile (fun e => e ≠ Event.closeDB) :=
  unclean_shutdown_marker_lifecycle cfgOk wOk () (New cfgOk wOk).2 (by rfl)

/-- C10.  The constructor rejects unsupported sync modes: whenever the
configured sync mode is `LightSync` or not a valid mode, `New` returns an
error without having opened the chain database or performed any
persistent-state event. -/
theorem new_rejects_unsupported_sync_modes (config : GdtuConfig)
    (w : NewWorld)
    (h : config.syncMode = LightSync ∨ syncModeIsValid config.syncMode = false) :
    (∃ e, (New config w).1 = Except.error e) ∧ (New config w).2 = [] := by
  by_cases h1 : config.syncMode = LightSync
  · unfold New
    rw [if_pos h1]
    exact ⟨⟨_, rfl⟩, rfl⟩
  · have h2 : syncModeIsValid config.syncMode = false := by
      cases h with
      | inl hl => exact absurd hl h1
      | inr hr => exact hr
    unfold New
    rw [if_neg h1, if_pos h2]
    exact ⟨⟨_, rfl⟩, rfl⟩

/-- Witness for C10 at the light-sync configuration. -/
theorem new_rejects_unsupported_sync_modes_witness :
    (cfgLight.syncMode = LightSync ∨ syncModeIsValid cfgLight.syncMode = false) ∧
    ((∃ e, (New cfgLight wOk).1 = Except.error e) ∧ (New cfgLight wOk).2 = []) :=
  ⟨Or.inl (by decide),
   new_rejects_unsupported_sync_modes cfgLight wOk (Or.inl (by decide))⟩

end GoGdtu
